import Mathlib

/-!
Shallow embedding of the Rove-Z3T rewards-redemption optimizer
(`redemption_optimizer/calculator.py`, `route_optimizer.py`, `recommender.py`,
`amadeus_client.py`) together with theorems settling the specification's
claims about it.

Modelling conventions:
- Python floats are modelled as rationals (`ℚ`); Python ints as `Int`.
- Python dictionaries with a fixed key set are modelled as structures; keys
  that are present only on some of the dictionaries flowing through a given
  list are modelled as `Option` fields, and the Python `d.get(key, default)`
  access becomes `Option.getD`.
- The external flight-data source (`AmadeusClient.search_flights`) is an
  injected capability; it is modelled as an explicit function argument of
  type `SearchFn`.  The deterministic mock generator `_get_mock_flights`
  is embedded as `get_mock_flights` and packaged as `mock_search`.
- Stateless methods of the Python classes become plain functions; the
  constant tables built in the constructors become constant definitions.
-/

namespace RoveZ3T

/-! ## Part 1: calculator.py -/

/-- Embedding of the dataclass `RedemptionOption` of `calculator.py`. -/
structure RedemptionOption where
  type : String
  name : String
  miles_cost : Int
  cash_equivalent : ℚ
  taxes_fees : ℚ
  description : String
deriving DecidableEq

/-- Embedding of the property `RedemptionOption.net_cash_value`. -/
def RedemptionOption.net_cash_value (o : RedemptionOption) : ℚ :=
  o.cash_equivalent - o.taxes_fees

/-- Embedding of the property `RedemptionOption.value_per_mile`. -/
def RedemptionOption.value_per_mile (o : RedemptionOption) : ℚ :=
  if o.miles_cost ≤ 0 then 0
  else o.net_cash_value / o.miles_cost * 100

/-- Embedding of `RedemptionCalculator.minimum_value_threshold` (0.5 cents). -/
def minimum_value_threshold : ℚ := 1 / 2

/-- Union of the keys of the dictionaries returned by
`calculate_flight_value`, `calculate_hotel_value` and
`calculate_giftcard_value`; a key absent from one of the three
dictionary shapes is an `Option` field. -/
structure ValueCalc where
  type : String
  miles_cost : Option Int
  points_cost : Option Int
  cash_price : Option ℚ
  giftcard_value : Option ℚ
  taxes_fees : ℚ
  net_value : ℚ
  value_per_mile : Option ℚ
  value_per_point : Option ℚ
  is_good_value : Bool
  savings_vs_cash : ℚ
deriving DecidableEq

/-- Embedding of `RedemptionCalculator.calculate_flight_value`. -/
def calculate_flight_value (miles_cost : Int) (cash_price taxes_fees : ℚ) :
    ValueCalc :=
  let net_value := cash_price - taxes_fees
  let value_per_mile := if 0 < miles_cost then net_value / miles_cost * 100 else 0
  ⟨"flight", some miles_cost, none, some cash_price, none, taxes_fees, net_value,
    some value_per_mile, none,
    decide (minimum_value_threshold ≤ value_per_mile), net_value⟩

/-- Embedding of `RedemptionCalculator.calculate_hotel_value`. -/
def calculate_hotel_value (points_cost : Int) (cash_price taxes_fees : ℚ) :
    ValueCalc :=
  let net_value := cash_price - taxes_fees
  let value_per_point := if 0 < points_cost then net_value / points_cost * 100 else 0
  ⟨"hotel", none, some points_cost, some cash_price, none, taxes_fees, net_value,
    none, some value_per_point,
    decide (minimum_value_threshold ≤ value_per_point), net_value⟩

/-- Embedding of `RedemptionCalculator.calculate_giftcard_value`. -/
def calculate_giftcard_value (points_cost : Int) (giftcard_value : ℚ) :
    ValueCalc :=
  let value_per_point :=
    if 0 < points_cost then giftcard_value / points_cost * 100 else 0
  ⟨"giftcard", none, some points_cost, none, some giftcard_value, 0,
    giftcard_value, none, some value_per_point,
    decide (minimum_value_threshold ≤ value_per_point), giftcard_value⟩

/-- Embedding of the dictionaries appended to `comparisons` inside
`compare_redemptions`. -/
structure ComparisonEntry where
  option : RedemptionOption
  calculation : ValueCalc
  value_per_unit : ℚ
deriving DecidableEq

/-- Embedding of the Python access
`calc_result.get('value_per_mile', calc_result.get('value_per_point', 0))`. -/
def calc_value_per_unit (c : ValueCalc) : ℚ :=
  c.value_per_mile.getD (c.value_per_point.getD 0)

/-- Body of the `for option in redemption_options` loop of
`compare_redemptions`: the `else: continue` branch for an unrecognised
`option.type` yields `none`. -/
def comparison_entry? (o : RedemptionOption) : Option ComparisonEntry :=
  if o.type = "flight" then
    let c := calculate_flight_value o.miles_cost o.cash_equivalent o.taxes_fees
    some ⟨o, c, calc_value_per_unit c⟩
  else if o.type = "hotel" then
    let c := calculate_hotel_value o.miles_cost o.cash_equivalent o.taxes_fees
    some ⟨o, c, calc_value_per_unit c⟩
  else if o.type = "giftcard" then
    let c := calculate_giftcard_value o.miles_cost o.cash_equivalent
    some ⟨o, c, calc_value_per_unit c⟩
  else none

/-- Embedding of `RedemptionCalculator.compare_redemptions`.  The Python
`list.sort(key=..., reverse=True)` is a stable descending sort, embedded as
`mergeSort` with the reflexive total order `value_per_unit y ≤ value_per_unit x`
(equal keys keep their relative order). -/
def compare_redemptions (redemption_options : List RedemptionOption) :
    List ComparisonEntry :=
  let comparisons := redemption_options.filterMap comparison_entry?
  comparisons.mergeSort fun x y => decide (y.value_per_unit ≤ x.value_per_unit)

/-! ## Part 2: amadeus_client.py (data-source interface and mock) -/

/-- Embedding of the segment dictionaries that `_get_mock_flights` builds and
that flow through `FlightOffer.segments` and `FlightRoute.segments`. -/
structure Segment where
  departure_iataCode : String
  departure_at : String
  arrival_iataCode : String
  arrival_at : String
  carrierCode : String
  number : String
deriving DecidableEq

/-- Embedding of the dataclass `FlightOffer` of `amadeus_client.py`. -/
structure FlightOffer where
  id : String
  origin : String
  destination : String
  departure_date : String
  return_date : Option String
  price : ℚ
  currency : String
  airline : String
  flight_number : String
  duration : String
  stops : Int
  cabin_class : String
  segments : List Segment
deriving DecidableEq

/-- Interface of the injected flight-data source
(`AmadeusClient.search_flights`), as used by the optimizer: arguments are
origin, destination, departure date (dates are carried as strings) and
`max_offers`. -/
abbrev SearchFn := String → String → String → Nat → List FlightOffer

/-- Embedding of the distance dictionary local to
`RouteOptimizer._calculate_distance` (an identical copy lives in
`AmadeusClient._calculate_distance`); `none` models a pair absent from the
dictionary. -/
def distance_table (a b : String) : Option Int :=
  if a = "JFK" ∧ b = "LAX" then some 2475
  else if a = "JFK" ∧ b = "ORD" then some 740
  else if a = "JFK" ∧ b = "ATL" then some 760
  else if a = "JFK" ∧ b = "DFW" then some 1389
  else if a = "LAX" ∧ b = "ORD" then some 1744
  else if a = "LAX" ∧ b = "ATL" then some 1947
  else if a = "LAX" ∧ b = "DFW" then some 1235
  else if a = "ORD" ∧ b = "ATL" then some 606
  else if a = "ORD" ∧ b = "DFW" then some 802
  else if a = "ATL" ∧ b = "DFW" then some 731
  else none

/-- Embedding of `RouteOptimizer._calculate_distance`: look up `(origin,
destination)`, then the reversed pair, and fall back to the default 1000. -/
def calculate_distance (origin destination : String) : Int :=
  match distance_table origin destination with
  | some d => d
  | none =>
    match distance_table destination origin with
    | some d => d
    | none => 1000

/-- Embedding of `AmadeusClient._get_mock_flights`: two deterministic offers
per origin/destination/date (our callers never pass a return date, so the
`return_date` branch is `none`). -/
def get_mock_flights (origin destination departure_date : String) :
    List FlightOffer :=
  let distance := calculate_distance origin destination
  let base_price : ℚ := distance * (15 / 100)
  [⟨"mock_1", origin, destination, departure_date, none, base_price * (8 / 10),
      "USD", "AA", "123", "PT" ++ toString (distance / 500 + 1) ++ "H", 0,
      "ECONOMY",
      [⟨origin, departure_date ++ "T10:00:00", destination,
          departure_date ++ "T13:00:00", "AA", "123"⟩]⟩,
    ⟨"mock_2", origin, destination, departure_date, none, base_price * (15 / 10),
      "USD", "DL", "456", "PT" ++ toString (distance / 500 + 1) ++ "H", 1,
      "PREMIUM_ECONOMY",
      [⟨origin, departure_date ++ "T08:00:00", "ORD",
          departure_date ++ "T10:00:00", "DL", "456"⟩,
        ⟨"ORD", departure_date ++ "T11:30:00", destination,
          departure_date ++ "T14:30:00", "DL", "789"⟩]⟩]

/-- Data source backed by the mock generator: `search_flights` without API
credentials returns `_get_mock_flights(...)`, ignoring `max_offers`. -/
def mock_search : SearchFn :=
  fun origin destination departure_date _maxOffers =>
    get_mock_flights origin destination departure_date

/-! ## Part 2: route_optimizer.py -/

/-- Embedding of the dataclass `FlightRoute` of `route_optimizer.py`. -/
structure FlightRoute where
  origin : String
  destination : String
  route_type : String
  total_miles : Int
  total_fees : ℚ
  segments : List Segment
  duration_hours : ℚ
  layover_airports : List String
  cash_price : ℚ
  airline : String
deriving DecidableEq

/-- Embedding of the property `FlightRoute.total_cost` (miles plus fees, the
deliberately unit-blended metric). -/
def FlightRoute.total_cost (r : FlightRoute) : ℚ :=
  r.total_miles + r.total_fees

/-- Embedding of the property `FlightRoute.route_description`. -/
def FlightRoute.route_description (r : FlightRoute) : String :=
  if r.route_type = "direct" then r.origin ++ " → " ++ r.destination
  else " → ".intercalate ([r.origin] ++ r.layover_airports ++ [r.destination])

/-- A five-zone award chart, as stored in `RouteOptimizer.award_charts`. -/
structure AwardChart where
  zone_1 : Int
  zone_2 : Int
  zone_3 : Int
  zone_4 : Int
  zone_5 : Int
deriving DecidableEq

/-- Embedding of `_load_award_charts()['domestic']`. -/
def award_charts_domestic : AwardChart := ⟨7500, 12500, 20000, 25000, 35000⟩

/-- Embedding of `_load_award_charts()['international']`. -/
def award_charts_international : AwardChart := ⟨30000, 40000, 50000, 60000, 70000⟩

/-- Embedding of `RouteOptimizer._get_award_cost` (the Python parameter
`is_international` defaults to `False`; callers that rely on the default pass
`false` explicitly here). -/
def get_award_cost (origin destination : String) (is_international : Bool) :
    Int :=
  let distance := calculate_distance origin destination
  if is_international then
    let chart := award_charts_international
    if distance < 2000 then chart.zone_1
    else if distance < 4000 then chart.zone_2
    else if distance < 6000 then chart.zone_3
    else if distance < 8000 then chart.zone_4
    else chart.zone_5
  else
    let chart := award_charts_domestic
    if distance ≤ 500 then chart.zone_1
    else if distance ≤ 1000 then chart.zone_2
    else if distance ≤ 1500 then chart.zone_3
    else if distance ≤ 2000 then chart.zone_4
    else chart.zone_5

/-- Model of Python's `int(s)` on the character list of `s`: optional
surrounding whitespace, an optional sign, then a nonempty digit string
(`none` models the `ValueError` raised on anything else; numeric-literal
underscores accepted by Python are not modelled, which only widens the
failure set used for the fallback path). -/
def pythonInt? (cs : List Char) : Option Int :=
  let t := (cs.dropWhile Char.isWhitespace).reverse.dropWhile Char.isWhitespace
    |>.reverse
  let digits := if t.take 1 = ['+'] ∨ t.take 1 = ['-'] then t.drop 1 else t
  if digits ≠ [] ∧ digits.all Char.isDigit then
    let n : Int := digits.foldl (fun n c => 10 * n + (c.toNat - '0'.toNat)) 0
    some (if t.take 1 = ['-'] then -n else n)
  else none

/-- Body of the `try` block of `RouteOptimizer._parse_duration`, with the
`ValueError` of `int(...)` made explicit: strip a leading `PT`, and if the
rest contains an `H`, convert the part before the first `H` with `int`
(`duration_str.split('H')[0]` is exactly that prefix); otherwise the
initialisation `hours = 0` stands. -/
def parse_duration_body (duration_str : String) : Except Unit ℚ :=
  let cs := duration_str.toList
  let cs := if cs.take 2 = ['P', 'T'] then cs.drop 2 else cs
  if cs.contains 'H' then
    match pythonInt? (cs.takeWhile fun c => ¬c = 'H') with
    | some hours => .ok (hours : ℚ)
    | none => .error ()
  else .ok 0

/-- Embedding of `RouteOptimizer._parse_duration`: the bare `except` turns
any parse failure into the default duration 5.0. -/
def parse_duration (duration_str : String) : ℚ :=
  match parse_duration_body duration_str with
  | .ok v => v
  | .error _ => 5

/-- Embedding of `RouteOptimizer.find_direct_routes`: request up to five
offers, keep the zero-stop ones, and price them via the award chart with the
`distance > 2000` international-classification heuristic. -/
def find_direct_routes (search : SearchFn)
    (origin destination travel_date : String) : List FlightRoute :=
  let flight_offers := search origin destination travel_date 5
  flight_offers.filterMap fun offer =>
    if offer.stops = 0 then
      let distance := calculate_distance origin destination
      let is_international := decide (2000 < distance)
      let award_cost := get_award_cost origin destination is_international
      let duration_hours := parse_duration offer.duration
      some ⟨origin, destination, "direct", award_cost, 50, offer.segments,
        duration_hours, [], offer.price, offer.airline⟩
    else none

/-- Embedding of `RouteOptimizer.major_hubs`. -/
def major_hubs : List String :=
  ["ATL", "DFW", "ORD", "LAX", "JFK", "LHR", "CDG", "NRT", "HKG", "SIN"]

/-- Route record built inside `find_layover_routes` for a hub once both legs
returned an offer. -/
def mk_layover_route (origin destination hub : String)
    (segment1 segment2 : FlightOffer) : FlightRoute :=
  ⟨origin, destination, "layover",
    get_award_cost origin hub false + get_award_cost hub destination false,
    75, segment1.segments ++ segment2.segments,
    parse_duration segment1.duration + parse_duration segment2.duration + 2,
    [hub], segment1.price + segment2.price,
    segment1.airline ++ "/" ++ segment2.airline⟩

/-- Body of the `for hub in hub_airports` loop of `find_layover_routes`:
skip a hub equal to origin or destination, request one best offer per leg,
and build a route only when both legs are nonempty. -/
def layover_route_for_hub (search : SearchFn)
    (origin destination travel_date hub : String) : Option FlightRoute :=
  if hub = origin ∨ hub = destination then none
  else
    let segment1_offers := search origin hub travel_date 1
    let segment2_offers := search hub destination travel_date 1
    match segment1_offers, segment2_offers with
    | segment1 :: _, segment2 :: _ =>
      some (mk_layover_route origin destination hub segment1 segment2)
    | _, _ => none

/-- Embedding of `RouteOptimizer.find_layover_routes` for an explicit hub
list (the Python `hub_airports=None` default is `major_hubs[:3]`, supplied by
`find_optimal_routes`). -/
def find_layover_routes (search : SearchFn)
    (origin destination travel_date : String) (hub_airports : List String) :
    List FlightRoute :=
  hub_airports.filterMap
    (layover_route_for_hub search origin destination travel_date)

/-- Embedding of the dictionary returned by
`RouteOptimizer.calculate_synthetic_savings`. -/
structure SyntheticSavings where
  direct_cost : ℚ
  layover_cost : ℚ
  savings : ℚ
  savings_percentage : ℚ
  is_worthwhile : Bool
deriving DecidableEq

/-- Embedding of `RouteOptimizer.calculate_synthetic_savings`. -/
def calculate_synthetic_savings (direct_cost layover_cost : ℚ) :
    SyntheticSavings :=
  let savings := direct_cost - layover_cost
  let savings_percentage :=
    if 0 < direct_cost then savings / direct_cost * 100 else 0
  ⟨direct_cost, layover_cost, savings, savings_percentage,
    decide (0 < savings) && decide (10 < savings_percentage)⟩

/-- Embedding of the `value_analysis` dictionary built per route inside
`rank_routes_by_value`. -/
structure RouteAnalysis where
  route : FlightRoute
  total_cost : ℚ
  cost_per_mile : ℚ
  efficiency_score : ℚ
  complexity_penalty : ℚ
  final_score : ℚ
deriving DecidableEq

/-- Per-route body of `rank_routes_by_value`: the efficiency/complexity
scoring formula. -/
def route_value_analysis (route : FlightRoute) : RouteAnalysis :=
  let total_cost := route.total_cost
  let cost_per_mile :=
    if 0 < route.duration_hours then route.total_miles / route.duration_hours
    else 0
  let efficiency_score := if 0 < total_cost then 1000 / total_cost else 0
  let complexity_penalty := (route.segments.length : ℚ) * (1 / 10)
  ⟨route, total_cost, cost_per_mile, efficiency_score, complexity_penalty,
    efficiency_score - complexity_penalty⟩

/-- Embedding of `RouteOptimizer.rank_routes_by_value`: score every route and
sort by `final_score`, highest first (stable descending sort). -/
def rank_routes_by_value (routes_list : List FlightRoute) :
    List RouteAnalysis :=
  (routes_list.map route_value_analysis).mergeSort fun a b =>
    decide (b.final_score ≤ a.final_score)

/-- Embedding of the `savings_opportunities` entries of
`find_optimal_routes`. -/
structure SavingsOpportunity where
  layover_route : FlightRoute
  savings_analysis : SyntheticSavings
deriving DecidableEq

/-- Embedding of the dictionary returned by `find_optimal_routes`; the keys
present only on one of the two return paths are `Option` fields. -/
structure OptimalRoutesResult where
  routes : List RouteAnalysis
  best_route : Option RouteAnalysis
  savings_opportunities : List SavingsOpportunity
  total_routes_found : Option Nat
  direct_routes_count : Option Nat
  layover_routes_count : Option Nat
  message : Option String
deriving DecidableEq

/-- Embedding of `RouteOptimizer.find_optimal_routes` (the Python
`max_routes` default is 5, supplied by the caller). -/
def find_optimal_routes (search : SearchFn)
    (origin destination travel_date : String) (max_routes : Nat) :
    OptimalRoutesResult :=
  let direct_routes := find_direct_routes search origin destination travel_date
  let layover_routes :=
    find_layover_routes search origin destination travel_date
      (major_hubs.take 3)
  let all_routes := direct_routes ++ layover_routes
  match direct_routes, all_routes with
  | _, [] =>
    ⟨[], none, [], none, none, none,
      some "No routes available for the specified criteria."⟩
  | first_direct, _ =>
    let ranked_routes := rank_routes_by_value all_routes
    let top_routes := ranked_routes.take max_routes
    let savings_opportunities :=
      match first_direct with
      | [] => []
      | d :: _ =>
        if layover_routes.length > 0 then
          layover_routes.filterMap fun layover_route =>
            let savings :=
              calculate_synthetic_savings d.total_cost layover_route.total_cost
            if savings.is_worthwhile then
              some ⟨layover_route, savings⟩
            else none
        else []
    ⟨top_routes, top_routes.head?, savings_opportunities,
      some all_routes.length, some direct_routes.length,
      some layover_routes.length, none⟩

/-! ## Part 3: recommender.py -/

/-- Embedding of the dataclass `UserPreferences`. -/
structure UserPreferences where
  maximize_value : Bool
  minimize_fees : Bool
  prefer_direct_flights : Bool
  max_layovers : Int
  hotel_preference : String
  include_alternatives : Bool
  min_value_per_mile : ℚ
deriving DecidableEq

/-- Embedding of `UserPreferences()` with all Python defaults (used when
`generate_recommendations` is called with `user_preferences=None`). -/
def default_user_preferences : UserPreferences :=
  ⟨true, false, true, 1, "any", true, 1⟩

/-- Union of the keys of the flight / hotel / gift-card / statement-credit
option dictionaries that `generate_recommendations` merges into one pool;
keys present only on some shapes are `Option` fields. -/
structure MergedOption where
  type : String
  subtype : Option String
  chain : Option String
  category : Option String
  merchant : Option String
  program : Option String
  route : Option String
  location : Option String
  cost_miles : Option Int
  cost_points : Option Int
  cash_equivalent : ℚ
  fees : Option ℚ
  value_per_mile : Option ℚ
  value_per_point : Option ℚ
  savings_vs_cash : ℚ
  duration_hours : Option ℚ
  segments : Option (List Segment)
  airline : Option String
  is_affordable : Option Bool
deriving DecidableEq

/-- A `MergedOption` with every absent-key field `none`, used as the base of
the record builders below. -/
def MergedOption.base : MergedOption :=
  ⟨"", none, none, none, none, none, none, none, none, none, 0, none, none,
    none, 0, none, none, none, none⟩

/-- Embedding of the Python access
`option.get('value_per_mile', option.get('value_per_point', 0))` used by the
filter, the value sort, `best_value_per_mile` and the average. -/
def option_value (o : MergedOption) : ℚ :=
  o.value_per_mile.getD (o.value_per_point.getD 0)

/-- Embedding of the Python access `x.get('fees', 0)` used by the fee sort. -/
def option_fees (o : MergedOption) : ℚ :=
  o.fees.getD 0

/-- Embedding of `RedemptionRecommender.get_flight_options`: take the ranked
routes of `find_optimal_routes`, keep those affordable with the available
miles, and convert each into a flight option dictionary. -/
def get_flight_options (search : SearchFn)
    (origin destination travel_date : String) (available_miles : Int) :
    List MergedOption :=
  let route_results := find_optimal_routes search origin destination travel_date 5
  route_results.routes.filterMap fun route_analysis =>
    let route := route_analysis.route
    if route.total_miles ≤ available_miles then
      let cash_price :=
        if 0 < route.cash_price then route.cash_price
        else (route.total_miles : ℚ) * (2 / 100)
      let value_calc :=
        calculate_flight_value route.total_miles cash_price route.total_fees
      some { MergedOption.base with
        type := "flight"
        subtype := some route.route_type
        cost_miles := some route.total_miles
        cash_equivalent := value_calc.cash_price.getD 0
        fees := some route.total_fees
        value_per_mile := some (value_calc.value_per_mile.getD 0)
        route := some route.route_description
        savings_vs_cash := value_calc.savings_vs_cash
        duration_hours := some route.duration_hours
        segments := some route.segments
        airline := some route.airline
        is_affordable := some true }
    else none

/-- Embedding of `RedemptionRecommender._load_hotel_data()`: chain, then per
category the points price and cash value, in Python dict insertion order. -/
def hotel_data : List (String × List (String × Int × ℚ)) :=
  [("marriott",
      [("category_1", 7500, 75), ("category_2", 12500, 125),
        ("category_3", 17500, 175), ("category_4", 25000, 250),
        ("category_5", 35000, 350), ("category_6", 50000, 500),
        ("category_7", 70000, 700), ("category_8", 100000, 1000)]),
    ("hilton",
      [("category_1", 10000, 60), ("category_2", 20000, 120),
        ("category_3", 30000, 180), ("category_4", 40000, 240),
        ("category_5", 50000, 300), ("category_6", 60000, 360),
        ("category_7", 70000, 420), ("category_8", 80000, 480)]),
    ("hyatt",
      [("category_1", 3500, 70), ("category_2", 6500, 130),
        ("category_3", 9000, 180), ("category_4", 12000, 240),
        ("category_5", 17000, 340), ("category_6", 21000, 420),
        ("category_7", 25000, 500), ("category_8", 30000, 600)])]

/-- Embedding of `RedemptionRecommender.get_hotel_options`: affordable
entries of the static hotel table, valued, sorted descending by
`value_per_point` (stable), truncated to the top five (the preferences
argument is accepted but, as in the source, not consulted). -/
def get_hotel_options (destination : String) (available_points : Int)
    (_preferences : UserPreferences) : List MergedOption :=
  let hotel_options := hotel_data.flatMap fun chain_entry =>
    chain_entry.2.filterMap fun category_entry =>
      if category_entry.2.1 ≤ available_points then
        let value_calc :=
          calculate_hotel_value category_entry.2.1 category_entry.2.2 0
        some { MergedOption.base with
          type := "hotel"
          chain := some chain_entry.1
          category := some category_entry.1
          cost_points := some category_entry.2.1
          cash_equivalent := category_entry.2.2
          fees := some 0
          value_per_point := some (value_calc.value_per_point.getD 0)
          location := some destination
          savings_vs_cash := value_calc.savings_vs_cash
          is_affordable := some true }
      else none
  let sorted_options := hotel_options.mergeSort fun a b =>
    decide (b.value_per_point.getD 0 ≤ a.value_per_point.getD 0)
  sorted_options.take 5

/-- Embedding of `_load_alternative_data()['gift_cards']`. -/
def gift_cards_data : List (String × Int × ℚ) :=
  [("amazon", 10000, 100), ("target", 10000, 100), ("walmart", 10000, 100),
    ("starbucks", 10000, 100), ("uber", 10000, 100)]

/-- Embedding of `_load_alternative_data()['statement_credits']`
(program name and `value_per_point`). -/
def statement_credits_data : List (String × ℚ) :=
  [("chase_pay_yourself_back", 125 / 100), ("amex_statement_credit", 60 / 100)]

/-- Embedding of `RedemptionRecommender.get_alternative_redemptions`:
affordable gift cards via the calculator, then statement credits with a mock
10000-point requirement. -/
def get_alternative_redemptions (available_points : Int) :
    List MergedOption :=
  let gift_card_options := gift_cards_data.filterMap fun merchant_entry =>
    if merchant_entry.2.1 ≤ available_points then
      let value_calc :=
        calculate_giftcard_value merchant_entry.2.1 merchant_entry.2.2
      some { MergedOption.base with
        type := "giftcard"
        merchant := some merchant_entry.1
        cost_points := some merchant_entry.2.1
        cash_equivalent := merchant_entry.2.2
        fees := some 0
        value_per_point := some (value_calc.value_per_point.getD 0)
        savings_vs_cash := value_calc.savings_vs_cash
        is_affordable := some true }
    else none
  let statement_credit_options :=
    statement_credits_data.filterMap fun program_entry =>
      let points_required : Int := 10000
      if points_required ≤ available_points then
        let cash_value : ℚ := (points_required : ℚ) * program_entry.2 / 100
        some { MergedOption.base with
          type := "statement_credit"
          program := some program_entry.1
          cost_points := some points_required
          cash_equivalent := cash_value
          fees := some 0
          value_per_point := some program_entry.2
          savings_vs_cash := cash_value
          is_affordable := some true }
      else none
  gift_card_options ++ statement_credit_options

/-- The merged candidate pool of `generate_recommendations`
(`all_options = flight_options + hotel_options + alternative_options`). -/
def all_options_pool (search : SearchFn)
    (origin_airport destination_airport travel_date : String)
    (available_miles : Int) (user_preferences : UserPreferences) :
    List MergedOption :=
  let flight_options :=
    get_flight_options search origin_airport destination_airport travel_date
      available_miles
  let hotel_options :=
    get_hotel_options destination_airport available_miles user_preferences
  let alternative_options :=
    if user_preferences.include_alternatives then
      get_alternative_redemptions available_miles
    else []
  flight_options ++ hotel_options ++ alternative_options

/-- The minimum-value filter of `generate_recommendations`: keep an option
when its value-per-unit is at least `min_value_per_mile`. -/
def filtered_options (user_preferences : UserPreferences)
    (all_options : List MergedOption) : List MergedOption :=
  all_options.filter fun o =>
    decide (user_preferences.min_value_per_mile ≤ option_value o)

/-- The ordering step of `generate_recommendations`: descending by value when
`maximize_value` (checked first), else ascending by fees when
`minimize_fees`, else unchanged; both Python sorts are stable. -/
def ordered_options (user_preferences : UserPreferences)
    (all_options : List MergedOption) : List MergedOption :=
  if user_preferences.maximize_value then
    (filtered_options user_preferences all_options).mergeSort fun a b =>
      decide (option_value b ≤ option_value a)
  else if user_preferences.minimize_fees then
    (filtered_options user_preferences all_options).mergeSort fun a b =>
      decide (option_fees a ≤ option_fees b)
  else filtered_options user_preferences all_options

/-- Model of Python's `max(xs, key=f)` on a nonempty list: the fold keeps the
current element unless a strictly greater key appears, so the first maximiser
wins. -/
def python_max_by {α : Type} (f : α → ℚ) : List α → Option α
  | [] => none
  | x :: xs => some (xs.foldl (fun acc y => if f acc < f y then y else acc) x)

/-- Embedding of the `summary` dictionary of the recommendation result. -/
structure RecommendationSummary where
  total_options_found : Nat
  affordable_options : Nat
  recommendations_generated : Nat
  average_value_per_mile : ℚ
deriving DecidableEq

/-- Embedding of the `search_criteria` dictionary of the recommendation
result (with its nested `preferences` echo flattened). -/
structure SearchCriteria where
  origin : String
  destination : String
  travel_date : String
  available_miles : Int
  maximize_value : Bool
  minimize_fees : Bool
  include_alternatives : Bool
deriving DecidableEq

/-- Embedding of the dictionary returned by `generate_recommendations`. -/
structure RecommendationResult where
  recommendations : List MergedOption
  best_overall : Option MergedOption
  best_value_per_mile : Option MergedOption
  summary : RecommendationSummary
  search_criteria : SearchCriteria
deriving DecidableEq

/-- Embedding of `RedemptionRecommender.generate_recommendations`: merge the
three pools, filter by minimum value, order by the active criterion, keep the
top five, and derive the two distinguished picks and summary statistics. -/
def generate_recommendations (search : SearchFn)
    (origin_airport destination_airport travel_date : String)
    (available_miles : Int) (user_preferences : UserPreferences) :
    RecommendationResult :=
  let all_options :=
    all_options_pool search origin_airport destination_airport travel_date
      available_miles user_preferences
  let top_recommendations :=
    (ordered_options user_preferences all_options).take 5
  let best_overall := top_recommendations.head?
  let best_value_per_mile := python_max_by option_value top_recommendations
  let affordable_options :=
    (all_options.filter fun o => o.is_affordable.getD false).length
  let average_value_per_mile :=
    if top_recommendations.isEmpty then 0
    else (top_recommendations.map option_value).sum / top_recommendations.length
  ⟨top_recommendations, best_overall, best_value_per_mile,
    ⟨all_options.length, affordable_options, top_recommendations.length,
      average_value_per_mile⟩,
    ⟨origin_airport, destination_airport, travel_date, available_miles,
      user_preferences.maximize_value, user_preferences.minimize_fees,
      user_preferences.include_alternatives⟩⟩

/-! ## Shared helper lemmas -/

/-- Transitivity of the stable-descending-sort comparison on a rational key. -/
lemma key_desc_trans {α : Type} (k : α → ℚ) (a b c : α)
    (h1 : decide (k b ≤ k a) = true) (h2 : decide (k c ≤ k b) = true) :
    decide (k c ≤ k a) = true := by
  simp only [decide_eq_true_eq] at *
  exact h2.trans h1

/-- Totality of the stable-descending-sort comparison on a rational key. -/
lemma key_desc_total {α : Type} (k : α → ℚ) (a b : α) :
    (decide (k b ≤ k a) || decide (k a ≤ k b)) = true := by
  simp only [Bool.or_eq_true, decide_eq_true_eq]
  exact le_total _ _

/-- Transitivity of the stable-ascending-sort comparison on a rational key. -/
lemma key_asc_trans {α : Type} (k : α → ℚ) (a b c : α)
    (h1 : decide (k a ≤ k b) = true) (h2 : decide (k b ≤ k c) = true) :
    decide (k a ≤ k c) = true := by
  simp only [decide_eq_true_eq] at *
  exact h1.trans h2

/-- Totality of the stable-ascending-sort comparison on a rational key. -/
lemma key_asc_total {α : Type} (k : α → ℚ) (a b : α) :
    (decide (k a ≤ k b) || decide (k b ≤ k a)) = true := by
  simp only [Bool.or_eq_true, decide_eq_true_eq]
  exact le_total _ _

/-- Invariant of the fold underlying `python_max_by`: the result is the seed
or a list element, it dominates the seed, and it dominates every element. -/
lemma python_max_foldl_spec {α : Type} (f : α → ℚ) (xs : List α) (a : α) :
    (xs.foldl (fun acc y => if f acc < f y then y else acc) a = a ∨
      xs.foldl (fun acc y => if f acc < f y then y else acc) a ∈ xs) ∧
    f a ≤ f (xs.foldl (fun acc y => if f acc < f y then y else acc) a) ∧
    ∀ x ∈ xs, f x ≤ f (xs.foldl (fun acc y => if f acc < f y then y else acc) a) := by
  induction xs generalizing a with
  | nil => exact ⟨Or.inl rfl, le_refl _, by simp⟩
  | cons y ys ih =>
    simp only [List.foldl_cons]
    by_cases hc : f a < f y
    · rw [if_pos hc]
      obtain ⟨hmem, hle, hall⟩ := ih y
      refine ⟨?_, le_trans (le_of_lt hc) hle, ?_⟩
      · rcases hmem with h | h
        · exact Or.inr (by rw [h]; exact List.mem_cons_self _ _)
        · exact Or.inr (List.mem_cons_of_mem _ h)
      · intro x hx
        rcases List.mem_cons.mp hx with rfl | hx
        · exact hle
        · exact hall x hx
    · rw [if_neg hc]
      obtain ⟨hmem, hle, hall⟩ := ih a
      refine ⟨?_, hle, ?_⟩
      · rcases hmem with h | h
        · exact Or.inl h
        · exact Or.inr (List.mem_cons_of_mem _ h)
      · intro x hx
        rcases List.mem_cons.mp hx with rfl | hx
        · exact le_trans (le_of_not_lt hc) hle
        · exact hall x hx

/-- Specification of `python_max_by`: a returned element is a member of the
list and carries the maximal key. -/
lemma python_max_by_spec {α : Type} (f : α → ℚ) (l : List α) (b : α)
    (h : python_max_by f l = some b) : b ∈ l ∧ ∀ x ∈ l, f x ≤ f b := by
  match l with
  | [] => exact Option.noConfusion h
  | x :: xs =>
    simp only [python_max_by, Option.some.injEq] at h
    subst h
    obtain ⟨hmem, hle, hall⟩ := python_max_foldl_spec f xs x
    refine ⟨?_, ?_⟩
    · rcases hmem with h | h
      · rw [h]; exact List.mem_cons_self _ _
      · exact List.mem_cons_of_mem _ h
    · intro z hz
      rcases List.mem_cons.mp hz with rfl | hz
      · exact hle
      · exact hall z hz

set_option maxHeartbeats 1000000 in
/-- A pair present in the distance dictionary is never present reversed
(the dictionary stores each city pair in one orientation only). -/
lemma distance_table_some_reverse_none {a b : String} {d : Int}
    (h : distance_table a b = some d) : distance_table b a = none := by
  by_cases c1 : a = "JFK" ∧ b = "LAX"
  · obtain ⟨rfl, rfl⟩ := c1; simp [distance_table]
  by_cases c2 : a = "JFK" ∧ b = "ORD"
  · obtain ⟨rfl, rfl⟩ := c2; simp [distance_table]
  by_cases c3 : a = "JFK" ∧ b = "ATL"
  · obtain ⟨rfl, rfl⟩ := c3; simp [distance_table]
  by_cases c4 : a = "JFK" ∧ b = "DFW"
  · obtain ⟨rfl, rfl⟩ := c4; simp [distance_table]
  by_cases c5 : a = "LAX" ∧ b = "ORD"
  · obtain ⟨rfl, rfl⟩ := c5; simp [distance_table]
  by_cases c6 : a = "LAX" ∧ b = "ATL"
  · obtain ⟨rfl, rfl⟩ := c6; simp [distance_table]
  by_cases c7 : a = "LAX" ∧ b = "DFW"
  · obtain ⟨rfl, rfl⟩ := c7; simp [distance_table]
  by_cases c8 : a = "ORD" ∧ b = "ATL"
  · obtain ⟨rfl, rfl⟩ := c8; simp [distance_table]
  by_cases c9 : a = "ORD" ∧ b = "DFW"
  · obtain ⟨rfl, rfl⟩ := c9; simp [distance_table]
  by_cases c10 : a = "ATL" ∧ b = "DFW"
  · obtain ⟨rfl, rfl⟩ := c10; simp [distance_table]
  exfalso
  unfold distance_table at h
  rw [if_neg c1, if_neg c2, if_neg c3, if_neg c4, if_neg c5, if_neg c6,
    if_neg c7, if_neg c8, if_neg c9, if_neg c10] at h
  exact Option.noConfusion h

/-- The bidirectional dictionary lookup of `_calculate_distance` is
symmetric in its two arguments. -/
lemma calculate_distance_symm (a b : String) :
    calculate_distance a b = calculate_distance b a := by
  unfold calculate_distance
  cases hab : distance_table a b with
  | some d => rw [distance_table_some_reverse_none hab]
  | none =>
    cases hba : distance_table b a with
    | some d => rfl
    | none => rfl

/-- Characterisation of the per-hub loop body of `find_layover_routes`. -/
lemma layover_route_for_hub_eq_some {search : SearchFn}
    {origin destination travel_date hub : String} {r : FlightRoute} :
    layover_route_for_hub search origin destination travel_date hub = some r ↔
      (¬hub = origin ∧ ¬hub = destination) ∧
        ∃ s1 t1 s2 t2,
          search origin hub travel_date 1 = s1 :: t1 ∧
          search hub destination travel_date 1 = s2 :: t2 ∧
          r = mk_layover_route origin destination hub s1 s2 := by
  unfold layover_route_for_hub
  by_cases hskip : hub = origin ∨ hub = destination
  · rw [if_pos hskip]
    constructor
    · intro h; exact Option.noConfusion h
    · rintro ⟨⟨hno, hnd⟩, -⟩
      rcases hskip with h | h
      · exact absurd h hno
      · exact absurd h hnd
  · rw [if_neg hskip]
    push_neg at hskip
    cases h1 : search origin hub travel_date 1 with
    | nil =>
      constructor
      · intro h; exact Option.noConfusion h
      · rintro ⟨-, s1, t1, -, -, heq, -⟩
        exact List.noConfusion heq
    | cons s1 t1 =>
      cases h2 : search hub destination travel_date 1 with
      | nil =>
        constructor
        · intro h; exact Option.noConfusion h
        · rintro ⟨-, s1', t1', s2', t2', -, heq, -⟩
          exact List.noConfusion heq
      | cons s2 t2 =>
        constructor
        · intro h
          refine ⟨⟨hskip.1, hskip.2⟩, s1, t1, s2, t2, rfl, rfl, ?_⟩
          exact (Option.some.injEq _ _ ▸ h).symm
        · rintro ⟨-, s1', t1', s2', t2', heq1, heq2, rfl⟩
          obtain ⟨rfl, rfl⟩ := List.cons.injEq .. ▸ heq1
          obtain ⟨rfl, rfl⟩ := List.cons.injEq .. ▸ heq2
          rfl

/-- Membership in the output of `find_layover_routes` is production of the
route by some hub of the candidate list. -/
lemma mem_find_layover_routes {search : SearchFn}
    {origin destination travel_date : String} {hubs : List String}
    {r : FlightRoute} :
    r ∈ find_layover_routes search origin destination travel_date hubs ↔
      ∃ hub ∈ hubs,
        layover_route_for_hub search origin destination travel_date hub =
          some r := by
  simp [find_layover_routes, List.mem_filterMap]

/-- The ordering step never adds or removes options: membership in the
ordered pool coincides with membership in the filtered pool. -/
lemma mem_ordered_options {user_preferences : UserPreferences}
    {all_options : List MergedOption} {o : MergedOption} :
    o ∈ ordered_options user_preferences all_options ↔
      o ∈ filtered_options user_preferences all_options := by
  unfold ordered_options
  split_ifs <;> simp [List.mem_mergeSort]

/-- An option of one of the three handled types yields a comparison entry
that carries the option itself. -/
lemma comparison_entry?_of_type {o : RedemptionOption}
    (h : o.type = "flight" ∨ o.type = "hotel" ∨ o.type = "giftcard") :
    ∃ e, comparison_entry? o = some e ∧ e.option = o := by
  unfold comparison_entry?
  rcases h with h | h | h
  · rw [if_pos h]
    exact ⟨_, rfl, rfl⟩
  · rw [if_neg (by rw [h]; decide), if_pos h]
    exact ⟨_, rfl, rfl⟩
  · rw [if_neg (by rw [h]; decide), if_neg (by rw [h]; decide), if_pos h]
    exact ⟨_, rfl, rfl⟩

/-- When every option has one of the three handled types, the pre-sort entry
list of `compare_redemptions` carries exactly the input options, in order. -/
lemma entries_map_option (opts : List RedemptionOption)
    (h : ∀ o ∈ opts,
      o.type = "flight" ∨ o.type = "hotel" ∨ o.type = "giftcard") :
    (opts.filterMap comparison_entry?).map ComparisonEntry.option = opts := by
  induction opts with
  | nil => rfl
  | cons o rest ih =>
    obtain ⟨e, he, heo⟩ :=
      comparison_entry?_of_type (h o (List.mem_cons_self _ _))
    simp only [List.filterMap_cons, he, List.map_cons, heo]
    rw [ih fun x hx => h x (List.mem_cons_of_mem _ hx)]

/-- With the international flag false, the award cost is always one of the
five domestic-chart prices, whatever the looked-up distance. -/
lemma get_award_cost_false_mem_domestic (a b : String) :
    get_award_cost a b false ∈
      [award_charts_domestic.zone_1, award_charts_domestic.zone_2,
        award_charts_domestic.zone_3, award_charts_domestic.zone_4,
        award_charts_domestic.zone_5] := by
  show (if calculate_distance a b ≤ 500 then award_charts_domestic.zone_1
    else if calculate_distance a b ≤ 1000 then award_charts_domestic.zone_2
    else if calculate_distance a b ≤ 1500 then award_charts_domestic.zone_3
    else if calculate_distance a b ≤ 2000 then award_charts_domestic.zone_4
    else award_charts_domestic.zone_5) ∈ _
  split_ifs <;> simp

/-! ## Claims -/

/-- Claim C1, counterexample: at miles_cost 10000, cash_price 100,
taxes_fees 200 the flight valuation returns value_per_mile −1, a negative
value differing from the clamped formula
`max 0 (cash_price − taxes_fees) / units_cost * 100` (which gives 0 here);
the `RedemptionOption.value_per_mile` property returns the same −1.  So the
claimed clamp to `max 0 ...` (and the claimed nonnegativity) does not hold
of the code. -/
theorem calculate_flight_value_negative_value :
    (calculate_flight_value 10000 100 200).value_per_mile = some (-1) ∧
    ¬(calculate_flight_value 10000 100 200).value_per_mile =
      some (max 0 ((100 : ℚ) - 200) / 10000 * 100) ∧
    RedemptionOption.value_per_mile
      ⟨"flight", "JFK to LAX Direct", 10000, 100, 200, ""⟩ = -1 ∧
    ¬(0 : ℚ) ≤ -1 := by
  have h1 : (calculate_flight_value 10000 100 200).value_per_mile =
      some (((100 : ℚ) - 200) / 10000 * 100) := rfl
  have hval : ((100 : ℚ) - 200) / 10000 * 100 = -1 := by norm_num
  have h2 : RedemptionOption.value_per_mile
      ⟨"flight", "JFK to LAX Direct", 10000, 100, 200, ""⟩ =
      ((100 : ℚ) - 200) / 10000 * 100 := rfl
  refine ⟨by rw [h1, hval], ?_, by rw [h2, hval], by norm_num⟩
  rw [h1, hval]
  have hmax : max 0 ((100 : ℚ) - 200) / 10000 * 100 = 0 := by
    rw [max_eq_left (by norm_num)]
    norm_num
  rw [hmax]
  norm_num

/-- Claim C1 (amended): for units_cost > 0 the returned value-per-unit is
`(cash_price − taxes_fees) / units_cost * 100` with no clamping (it is
negative whenever taxes_fees exceed cash_price), and for units_cost ≤ 0 it
is 0; the `RedemptionOption.value_per_mile` property computes the same
unclamped formula. -/
theorem value_per_unit_unclamped_formula (m : Int) (c t : ℚ)
    (o : RedemptionOption) :
    (calculate_flight_value m c t).value_per_mile =
      some (if 0 < m then (c - t) / m * 100 else 0) ∧
    o.value_per_mile =
      (if 0 < o.miles_cost then
        (o.cash_equivalent - o.taxes_fees) / o.miles_cost * 100
      else 0) := by
  constructor
  · rfl
  · unfold RedemptionOption.value_per_mile RedemptionOption.net_cash_value
    by_cases h : o.miles_cost ≤ 0
    · rw [if_pos h, if_neg (by omega)]
    · rw [if_neg h, if_pos (by omega)]

/-- Claim C1 witness: the spec's own scenario (25000 miles, cash 400, fees
50) evaluates to 1.4 cents per mile through the amended formula. -/
theorem value_per_unit_unclamped_formula_witness :
    (calculate_flight_value 25000 400 50).value_per_mile = some (7 / 5) := by
  have h := value_per_unit_unclamped_formula 25000 400 50
    ⟨"flight", "JFK to LAX Direct", 25000, 400, 50, ""⟩
  rw [h.1]
  norm_num

/-- Claim C4, counterexample: for two zero-segment routes with total costs
−5 and 0, the lower-cost route does not get a strictly higher final score:
both scores are 0, because the efficiency score is guarded to 0 whenever
total_cost ≤ 0.  The claim as stated fails for nonpositive costs. -/
theorem final_score_equal_at_nonpositive_cost :
    (FlightRoute.mk "A" "B" "direct" (-5) 0 [] 1 [] 0 "").segments.length =
      (FlightRoute.mk "A" "B" "direct" 0 0 [] 1 [] 0 "").segments.length ∧
    (FlightRoute.mk "A" "B" "direct" (-5) 0 [] 1 [] 0 "").total_cost <
      (FlightRoute.mk "A" "B" "direct" 0 0 [] 1 [] 0 "").total_cost ∧
    (route_value_analysis
        (FlightRoute.mk "A" "B" "direct" (-5) 0 [] 1 [] 0 "")).final_score =
      (route_value_analysis
        (FlightRoute.mk "A" "B" "direct" 0 0 [] 1 [] 0 "")).final_score := by
  refine ⟨rfl, ?_, ?_⟩
  · simp only [FlightRoute.total_cost]
    norm_num
  · simp only [route_value_analysis, FlightRoute.total_cost]
    norm_num

/-- Claim C4 (amended): for two routes with equal segment count and positive
total costs, the one with lower total_cost receives a strictly higher
final_score, where final_score = efficiency_score − 0.1·segment_count and
efficiency_score = 1000 / total_cost (guarded to 0 for nonpositive cost). -/
theorem lower_cost_higher_final_score (r1 r2 : FlightRoute)
    (hseg : r1.segments.length = r2.segments.length)
    (hpos : 0 < r1.total_cost) (hlt : r1.total_cost < r2.total_cost) :
    (route_value_analysis r2).final_score <
      (route_value_analysis r1).final_score := by
  have hfs : ∀ r : FlightRoute, (route_value_analysis r).final_score =
      (if 0 < r.total_cost then 1000 / r.total_cost else 0) -
        (r.segments.length : ℚ) * (1 / 10) := fun r => rfl
  have h2pos : 0 < r2.total_cost := lt_trans hpos hlt
  rw [hfs, hfs, hseg, if_pos hpos, if_pos h2pos]
  have hdiv : (1000 : ℚ) / r2.total_cost < 1000 / r1.total_cost :=
    (div_lt_div_iff_of_pos_left (by norm_num) h2pos hpos).mpr hlt
  linarith

/-- Claim C4 witness: concrete routes with equal segment count and costs 100
and 200 confirm the strict score comparison. -/
theorem lower_cost_higher_final_score_witness :
    (route_value_analysis
        (FlightRoute.mk "A" "B" "direct" 200 0 [] 1 [] 0 "")).final_score <
      (route_value_analysis
        (FlightRoute.mk "A" "B" "direct" 100 0 [] 1 [] 0 "")).final_score :=
  lower_cost_higher_final_score _ _ rfl
    (by simp only [FlightRoute.total_cost]; norm_num)
    (by simp only [FlightRoute.total_cost]; norm_num)

/-- Claim C6: `calculate_synthetic_savings` computes savings = direct −
layover, percentage = savings / direct × 100 when direct > 0 (else 0), and
is_worthwhile exactly when savings > 0 and percentage > 10; on the spec's
two vectors it yields −200 / not worthwhile and 200 / 20.0 / worthwhile. -/
theorem calculate_synthetic_savings_spec (direct_cost layover_cost : ℚ) :
    (calculate_synthetic_savings direct_cost layover_cost).savings =
      direct_cost - layover_cost ∧
    (calculate_synthetic_savings direct_cost layover_cost).savings_percentage =
      (if 0 < direct_cost then
        (direct_cost - layover_cost) / direct_cost * 100
      else 0) ∧
    ((calculate_synthetic_savings direct_cost layover_cost).is_worthwhile =
        true ↔
      0 < (calculate_synthetic_savings direct_cost layover_cost).savings ∧
        10 <
          (calculate_synthetic_savings direct_cost
              layover_cost).savings_percentage) ∧
    (calculate_synthetic_savings 1000 1200).savings = -200 ∧
    (calculate_synthetic_savings 1000 1200).is_worthwhile = false ∧
    (calculate_synthetic_savings 1000 800).savings = 200 ∧
    (calculate_synthetic_savings 1000 800).savings_percentage = 20 ∧
    (calculate_synthetic_savings 1000 800).is_worthwhile = true := by
  have hsav : ∀ d l : ℚ, (calculate_synthetic_savings d l).savings = d - l :=
    fun d l => rfl
  have hpct : ∀ d l : ℚ,
      (calculate_synthetic_savings d l).savings_percentage =
        if 0 < d then (d - l) / d * 100 else 0 := fun d l => rfl
  have hw : ∀ d l : ℚ,
      ((calculate_synthetic_savings d l).is_worthwhile = true ↔
        0 < (calculate_synthetic_savings d l).savings ∧
          10 < (calculate_synthetic_savings d l).savings_percentage) := by
    intro d l
    show (decide _ && decide _) = true ↔ _
    rw [Bool.and_eq_true, decide_eq_true_eq, decide_eq_true_eq, hsav, hpct]
  have hpct1 : (calculate_synthetic_savings 1000 1200).savings_percentage =
      -20 := by
    rw [hpct, if_pos (by norm_num)]
    norm_num
  have hpct2 : (calculate_synthetic_savings 1000 800).savings_percentage =
      20 := by
    rw [hpct, if_pos (by norm_num)]
    norm_num
  refine ⟨hsav _ _, hpct _ _, hw _ _, by rw [hsav]; norm_num, ?_,
    by rw [hsav]; norm_num, hpct2, ?_⟩
  · cases hb : (calculate_synthetic_savings 1000 1200).is_worthwhile with
    | false => rfl
    | true =>
      have hcontra := (hw 1000 1200).mp hb
      rw [hsav] at hcontra
      have h0 := hcontra.1
      norm_num at h0
  · rw [hw, hsav, hpct2]
    norm_num

/-- Claim C6 witness: a direct application at costs 3 and 1. -/
theorem calculate_synthetic_savings_spec_witness :
    (calculate_synthetic_savings 3 1).savings = 3 - 1 :=
  (calculate_synthetic_savings_spec 3 1).1

/-- Claim C7: the award-cost model is symmetric in origin and destination
for both values of the international flag, including pairs that fall back to
the default distance. -/
theorem get_award_cost_symm (origin destination : String)
    (is_international : Bool) :
    get_award_cost origin destination is_international =
      get_award_cost destination origin is_international := by
  unfold get_award_cost
  rw [calculate_distance_symm]

/-- Claim C7 witness: symmetry at a concrete table pair, evaluated on both
charts, and at a pair absent from the table. -/
theorem get_award_cost_symm_witness :
    get_award_cost "JFK" "LAX" true = get_award_cost "LAX" "JFK" true ∧
    get_award_cost "JFK" "LAX" true = 40000 ∧
    get_award_cost "SEA" "BOS" false = get_award_cost "BOS" "SEA" false ∧
    get_award_cost "SEA" "BOS" false = 12500 :=
  ⟨get_award_cost_symm "JFK" "LAX" true, by decide,
    get_award_cost_symm "SEA" "BOS" false, by decide⟩

/-- Claim C8: the recommendation pipeline is a pure function of its inputs
and the injected data source, so two calls with identical inputs and the
same (unchanged) data source return identical results. -/
theorem generate_recommendations_deterministic
    (search1 search2 : SearchFn) (o1 o2 d1 d2 t1 t2 : String)
    (m1 m2 : Int) (p1 p2 : UserPreferences)
    (hsearch : search1 = search2) (ho : o1 = o2) (hd : d1 = d2)
    (ht : t1 = t2) (hm : m1 = m2) (hp : p1 = p2) :
    generate_recommendations search1 o1 d1 t1 m1 p1 =
      generate_recommendations search2 o2 d2 t2 m2 p2 := by
  subst hsearch; subst ho; subst hd; subst ht; subst hm; subst hp; rfl

/-- Claim C8 witness: two identical calls against the mock data source. -/
theorem generate_recommendations_deterministic_witness :
    generate_recommendations mock_search "JFK" "LAX" "2025-06-01" 100000
        default_user_preferences =
      generate_recommendations mock_search "JFK" "LAX" "2025-06-01" 100000
        default_user_preferences :=
  generate_recommendations_deterministic mock_search mock_search "JFK" "JFK"
    "LAX" "LAX" "2025-06-01" "2025-06-01" 100000 100000
    default_user_preferences default_user_preferences rfl rfl rfl rfl rfl rfl

/-- Claim C9: `_parse_duration` is total — on every string it either returns
the value of the parsed hours-only encoding, or, exactly when that parse
raises, returns the fixed default 5.0 instead of propagating the error. -/
theorem parse_duration_total_default (s : String) :
    (∃ v, parse_duration_body s = Except.ok v ∧ parse_duration s = v) ∨
      (parse_duration_body s = Except.error () ∧ parse_duration s = 5) := by
  unfold parse_duration
  cases h : parse_duration_body s with
  | ok v => exact Or.inl ⟨v, rfl, rfl⟩
  | error e => cases e; exact Or.inr ⟨rfl, rfl⟩

/-- Claim C9 witness: the malformed encoding PTXH falls back to 5.0, and the
well-formed PT7H parses to 7.0. -/
theorem parse_duration_total_default_witness :
    ((∃ v, parse_duration_body "PTXH" = Except.ok v ∧
        parse_duration "PTXH" = v) ∨
      (parse_duration_body "PTXH" = Except.error () ∧
        parse_duration "PTXH" = 5)) ∧
    parse_duration "PTXH" = 5 ∧ parse_duration "PT7H" = 7 :=
  ⟨parse_duration_total_default "PTXH", by decide, by decide⟩

/-- Claim C2: in `generate_recommendations`, every merged-pool option whose
value-per-unit is below min_value_per_unit is absent from the ordered pool;
the ordered pool is descending by value when maximize_value is set (which
takes priority over minimize_fees) and ascending by fees when only
minimize_fees is set; the recommendation list is the first five elements of
that ordering; best_overall is its head (none if empty); and
best_value_per_mile is a maximum-value element of that same top five. -/
theorem generate_recommendations_filter_order_top5 (s : SearchFn)
    (o d t : String) (m : Int) (p : UserPreferences) :
    (∀ x ∈ all_options_pool s o d t m p,
      option_value x < p.min_value_per_mile →
        x ∉ ordered_options p (all_options_pool s o d t m p)) ∧
    (p.maximize_value = true →
      (ordered_options p (all_options_pool s o d t m p)).Pairwise fun a b =>
        option_value b ≤ option_value a) ∧
    (p.maximize_value = false → p.minimize_fees = true →
      (ordered_options p (all_options_pool s o d t m p)).Pairwise fun a b =>
        option_fees a ≤ option_fees b) ∧
    (generate_recommendations s o d t m p).recommendations =
      (ordered_options p (all_options_pool s o d t m p)).take 5 ∧
    (generate_recommendations s o d t m p).best_overall =
      (generate_recommendations s o d t m p).recommendations.head? ∧
    (∀ b, (generate_recommendations s o d t m p).best_value_per_mile =
        some b →
      b ∈ (generate_recommendations s o d t m p).recommendations ∧
        ∀ x ∈ (generate_recommendations s o d t m p).recommendations,
          option_value x ≤ option_value b) ∧
    ((generate_recommendations s o d t m p).recommendations = [] →
      (generate_recommendations s o d t m p).best_value_per_mile = none) := by
  refine ⟨?_, ?_, ?_, rfl, rfl, ?_, ?_⟩
  · intro x hmem hlt hord
    have hf := mem_ordered_options.mp hord
    rw [filtered_options, List.mem_filter] at hf
    exact absurd (of_decide_eq_true hf.2) (not_le.mpr hlt)
  · intro hmax
    unfold ordered_options
    rw [if_pos hmax]
    exact (List.sorted_mergeSort (key_desc_trans option_value)
      (key_desc_total option_value) _).imp fun h => of_decide_eq_true h
  · intro hmax hmin
    unfold ordered_options
    rw [if_neg (by rw [hmax]; exact Bool.false_ne_true), if_pos hmin]
    exact (List.sorted_mergeSort (key_asc_trans option_fees)
      (key_asc_total option_fees) _).imp fun h => of_decide_eq_true h
  · intro b hb
    exact python_max_by_spec option_value
      ((ordered_options p (all_options_pool s o d t m p)).take 5) b hb
  · intro hempty
    show python_max_by option_value
      ((ordered_options p (all_options_pool s o d t m p)).take 5) = none
    have h5 : (ordered_options p (all_options_pool s o d t m p)).take 5 =
        [] := hempty
    rw [h5]
    rfl

/-- Claim C2 witness: a concrete call against the mock data source, with the
default preferences (maximize_value set), instantiating the top-five and
descending-order conclusions. -/
theorem generate_recommendations_filter_order_top5_witness :
    (generate_recommendations mock_search "JFK" "LAX" "D" 100000
        default_user_preferences).recommendations =
      (ordered_options default_user_preferences
          (all_options_pool mock_search "JFK" "LAX" "D" 100000
            default_user_preferences)).take 5 ∧
    (ordered_options default_user_preferences
        (all_options_pool mock_search "JFK" "LAX" "D" 100000
          default_user_preferences)).Pairwise (fun a b =>
      option_value b ≤ option_value a) := by
  have h := generate_recommendations_filter_order_top5 mock_search "JFK"
    "LAX" "D" 100000 default_user_preferences
  exact ⟨h.2.2.2.1, h.2.1 rfl⟩

/-- Claim C3, counterexample: a statement_credit option (one of the spec's
four types) contributes no entry to `compare_redemptions` — the loop's
`else: continue` drops it — so the output does not have exactly one entry
per input option. -/
theorem compare_redemptions_skips_statement_credit :
    compare_redemptions
        [⟨"statement_credit", "Chase Pay Yourself Back", 10000, 125, 0, ""⟩] =
      [] ∧
    ([(⟨"statement_credit", "Chase Pay Yourself Back", 10000, 125, 0, ""⟩ :
        RedemptionOption)] : List RedemptionOption).length = 1 := by
  constructor
  · simp [compare_redemptions, comparison_entry?]
  · rfl

/-- Claim C3 (amended): for inputs whose options all have one of the three
handled types (flight, hotel, giftcard — statement_credit options are
skipped by the loop), `compare_redemptions` computes one value record per
option, sorted descending by value_per_unit, and ties preserve the order of
the pre-sort entry list (stable sort). -/
theorem compare_redemptions_ranked_stable (opts : List RedemptionOption)
    (htypes : ∀ x ∈ opts,
      x.type = "flight" ∨ x.type = "hotel" ∨ x.type = "giftcard") :
    ((compare_redemptions opts).map ComparisonEntry.option).Perm opts ∧
    (compare_redemptions opts).Pairwise (fun x y =>
      y.value_per_unit ≤ x.value_per_unit) ∧
    ∀ x y : ComparisonEntry,
      List.Sublist [x, y] (opts.filterMap comparison_entry?) →
      x.value_per_unit = y.value_per_unit →
      List.Sublist [x, y] (compare_redemptions opts) := by
  refine ⟨?_, ?_, ?_⟩
  · have hperm : (compare_redemptions opts).Perm
        (opts.filterMap comparison_entry?) := List.mergeSort_perm _ _
    have hmap := hperm.map ComparisonEntry.option
    rw [entries_map_option opts htypes] at hmap
    exact hmap
  · exact (List.sorted_mergeSort
      (key_desc_trans ComparisonEntry.value_per_unit)
      (key_desc_total ComparisonEntry.value_per_unit)
      (opts.filterMap comparison_entry?)).imp fun h => of_decide_eq_true h
  · intro x y hsub heq
    exact List.pair_sublist_mergeSort
      (key_desc_trans ComparisonEntry.value_per_unit)
      (key_desc_total ComparisonEntry.value_per_unit)
      (decide_eq_true heq.ge) hsub

/-- Claim C3 witness: the sample option list of `analyze_sample_data`
instantiates the one-record-per-option conclusion. -/
theorem compare_redemptions_ranked_stable_witness :
    ((compare_redemptions
        [⟨"flight", "JFK to LAX Direct", 25000, 400, 50, ""⟩,
          ⟨"hotel", "Marriott Hotel Night", 30000, 300, 0, ""⟩,
          ⟨"giftcard", "Amazon Gift Card", 10000, 100, 0, ""⟩]).map
      ComparisonEntry.option).Perm
      [⟨"flight", "JFK to LAX Direct", 25000, 400, 50, ""⟩,
        ⟨"hotel", "Marriott Hotel Night", 30000, 300, 0, ""⟩,
        ⟨"giftcard", "Amazon Gift Card", 10000, 100, 0, ""⟩] :=
  (compare_redemptions_ranked_stable
    [⟨"flight", "JFK to LAX Direct", 25000, 400, 50, ""⟩,
      ⟨"hotel", "Marriott Hotel Night", 30000, 300, 0, ""⟩,
      ⟨"giftcard", "Amazon Gift Card", 10000, 100, 0, ""⟩]
    (by decide)).1

/-- Claim C5: every route produced by `find_layover_routes` comes from a hub
distinct from origin and destination with both leg searches nonempty, and
carries total_miles equal to the sum of the two independently costed legs,
the flat layover fee 75, duration leg1 + leg2 + 2 hours, and the
concatenated segment lists; conversely, a qualifying hub produces a route
exactly when both leg searches return at least one offer. -/
theorem find_layover_routes_spec (s : SearchFn) (o d t : String)
    (hubs : List String) :
    (∀ r ∈ find_layover_routes s o d t hubs,
      ∃ hub segment1 rest1 segment2 rest2,
        hub ∈ hubs ∧ ¬hub = o ∧ ¬hub = d ∧
        s o hub t 1 = segment1 :: rest1 ∧
        s hub d t 1 = segment2 :: rest2 ∧
        r.layover_airports = [hub] ∧
        r.total_miles =
          get_award_cost o hub false + get_award_cost hub d false ∧
        r.total_fees = 75 ∧
        r.duration_hours =
          parse_duration segment1.duration +
            parse_duration segment2.duration + 2 ∧
        r.segments = segment1.segments ++ segment2.segments) ∧
    (∀ hub ∈ hubs, ¬hub = o → ¬hub = d →
      ((∃ r ∈ find_layover_routes s o d t hubs,
          r.layover_airports = [hub]) ↔
        (¬s o hub t 1 = [] ∧ ¬s hub d t 1 = []))) := by
  constructor
  · intro r hr
    rw [mem_find_layover_routes] at hr
    obtain ⟨hub, hhub, heq⟩ := hr
    rw [layover_route_for_hub_eq_some] at heq
    obtain ⟨⟨hno, hnd⟩, s1, t1, s2, t2, h1, h2, rfl⟩ := heq
    exact ⟨hub, s1, t1, s2, t2, hhub, hno, hnd, h1, h2, rfl, rfl, rfl, rfl,
      rfl⟩
  · intro hub hhub hno hnd
    constructor
    · rintro ⟨r, hr, hlay⟩
      rw [mem_find_layover_routes] at hr
      obtain ⟨hub', -, heq⟩ := hr
      rw [layover_route_for_hub_eq_some] at heq
      obtain ⟨-, s1, t1, s2, t2, h1, h2, rfl⟩ := heq
      have hh : hub' = hub := by
        injection hlay
      subst hh
      constructor
      · rw [h1]; exact List.cons_ne_nil _ _
      · rw [h2]; exact List.cons_ne_nil _ _
    · rintro ⟨hne1, hne2⟩
      cases h1 : s o hub t 1 with
      | nil => exact absurd h1 hne1
      | cons s1 t1 =>
        cases h2 : s hub d t 1 with
        | nil => exact absurd h2 hne2
        | cons s2 t2 =>
          refine ⟨mk_layover_route o d hub s1 s2, ?_, rfl⟩
          rw [mem_find_layover_routes]
          exact ⟨hub, hhub, layover_route_for_hub_eq_some.mpr
            ⟨⟨hno, hnd⟩, s1, t1, s2, t2, h1, h2, rfl⟩⟩

/-- Claim C5 witness: against the mock data source, the hub ORD (distinct
from JFK and LAX, with both legs nonempty) produces a layover route. -/
theorem find_layover_routes_spec_witness :
    ∃ r ∈ find_layover_routes mock_search "JFK" "LAX" "D" ["ORD"],
      r.layover_airports = ["ORD"] :=
  ((find_layover_routes_spec mock_search "JFK" "LAX" "D" ["ORD"]).2
    "ORD" (by decide) (by decide) (by decide)).mpr
    ⟨by simp [mock_search, get_mock_flights],
      by simp [mock_search, get_mock_flights]⟩

/-- Claim C10: every layover route prices each leg with the international
flag false (the Python default, never overridden), so each leg's cost is one
of the five domestic-chart prices regardless of its looked-up distance,
while direct routes apply the distance-over-2000 international
classification heuristic. -/
theorem layover_legs_use_domestic_chart (s : SearchFn) (o d t : String)
    (hubs : List String) (r : FlightRoute)
    (hr : r ∈ find_layover_routes s o d t hubs) :
    (∃ hub, r.layover_airports = [hub] ∧
      r.total_miles =
        get_award_cost o hub false + get_award_cost hub d false) ∧
    (∀ a b : String,
      get_award_cost a b false ∈
        [award_charts_domestic.zone_1, award_charts_domestic.zone_2,
          award_charts_domestic.zone_3, award_charts_domestic.zone_4,
          award_charts_domestic.zone_5]) ∧
    (∀ r' ∈ find_direct_routes s o d t,
      r'.total_miles =
        get_award_cost o d (decide (2000 < calculate_distance o d))) := by
  refine ⟨?_, fun a b => get_award_cost_false_mem_domestic a b, ?_⟩
  · rw [mem_find_layover_routes] at hr
    obtain ⟨hub, -, heq⟩ := hr
    rw [layover_route_for_hub_eq_some] at heq
    obtain ⟨-, s1, t1, s2, t2, -, -, rfl⟩ := heq
    exact ⟨hub, rfl, rfl⟩
  · intro r' hr'
    unfold find_direct_routes at hr'
    rw [List.mem_filterMap] at hr'
    obtain ⟨offer, -, hsome⟩ := hr'
    by_cases hstops : offer.stops = 0
    · rw [if_pos hstops] at hsome
      injection hsome with hsome
      rw [← hsome]
    · rw [if_neg hstops] at hsome
      exact Option.noConfusion hsome

/-- Claim C10 witness: through the mock source, the over-2000-mile leg
ORD→? of a JFK→LAX routing via ORD is still priced from the domestic chart;
in particular the JFK–LAX pair itself (distance 2475 > 2000) costs the
domestic zone-5 price 35000 with the flag false, not an international-chart
price. -/
theorem layover_legs_use_domestic_chart_witness :
    get_award_cost "JFK" "LAX" false ∈
      [award_charts_domestic.zone_1, award_charts_domestic.zone_2,
        award_charts_domestic.zone_3, award_charts_domestic.zone_4,
        award_charts_domestic.zone_5] ∧
    get_award_cost "JFK" "LAX" false = 35000 ∧
    2000 < calculate_distance "JFK" "LAX" := by
  cases hms1 : mock_search "JFK" "ORD" "D" 1 with
  | nil => simp [mock_search, get_mock_flights] at hms1
  | cons s1 rest1 =>
    cases hms2 : mock_search "ORD" "LAX" "D" 1 with
    | nil => simp [mock_search, get_mock_flights] at hms2
    | cons s2 rest2 =>
      have hr : mk_layover_route "JFK" "LAX" "ORD" s1 s2 ∈
          find_layover_routes mock_search "JFK" "LAX" "D" ["ORD"] := by
        rw [mem_find_layover_routes]
        exact ⟨"ORD", by decide, layover_route_for_hub_eq_some.mpr
          ⟨⟨by decide, by decide⟩, s1, rest1, s2, rest2, hms1, hms2, rfl⟩⟩
      have h := layover_legs_use_domestic_chart mock_search "JFK" "LAX" "D"
        ["ORD"] (mk_layover_route "JFK" "LAX" "ORD" s1 s2) hr
      exact ⟨h.2.1 "JFK" "LAX", by decide, by decide⟩

end RoveZ3T
